import Mathlib

/-!
Shallow embedding of the Cleartrip relay service (src/main.py) and proofs
of its specified properties.

The embedding covers the three core components of the service:

* the header-derivation engine `get_required_headers` (main.py lines 911-937),
* the flight credential lifecycle: `get_flight_token` (lines 46-95) and
  `refresh_flight_token` (lines 98-136), together with the process-wide
  cache `flight_token_cache` (lines 37-41),
* the response/failure mapping of the hotel `relay` handler (lines 940-997).

Modelling conventions:

* `datetime.now()` is an explicit `now : Int` parameter (seconds);
  `timedelta(seconds = s)` is integer addition.
* `uuid.uuid4()` is modelled as drawing the next value from an injective
  fresh-identifier supply `UuidGen`; a drawn identifier is represented by
  its draw index (`HeaderVal.uuid n`).
* An HTTP exchange is modelled by its observable result: either the
  response (status, raw text, and the parsed JSON fields the code reads),
  or a raised transport exception (`NetResult.exn`).
* Python exception control flow is embedded explicitly: a raise inside a
  `try` body whose `except Exception` clause converts it is translated to
  the converted value, because that is what the caller observes.
* Exception message text produced by Python internals (JSON decode
  errors, `KeyError` rendering) is abstracted by short stand-in strings;
  statuses and the message text written literally in main.py are kept.
-/

/-- Env default of `CLEARTRIP_API_KEY` (main.py line 28): empty string. -/
def CLEARTRIP_API_KEY : String := ""

/-- Python string truthiness for an optional string field: `None` and the
empty string are falsy. -/
def truthyStr : Option String → Bool
  | none => false
  | some s => s != ""

/-- Python `str.lower()` (the paths involved are ASCII, on which
per-character ASCII lowering coincides with it). -/
def pyLower (s : String) : String := ⟨s.data.map Char.toLower⟩

/-- Python slice truncation `s[:n]`. -/
def pyTruncate (s : String) (n : Nat) : String := ⟨s.data.take n⟩

/-- Python substring test `sub in s` on character lists. -/
def charsContain (sub : List Char) : List Char → Bool
  | [] => sub.isPrefixOf ([] : List Char)
  | c :: rest => sub.isPrefixOf (c :: rest) || charsContain sub rest

/-- Python substring test `sub in s` on strings. -/
def strContains (s sub : String) : Bool :=
  charsContain sub.data s.data

/-- The process-wide mutable token cache `flight_token_cache`
(main.py lines 37-41): idToken, refreshToken, expiresAt. -/
structure TokenCache where
  idToken : Option String
  refreshToken : Option String
  expiresAt : Option Int
deriving Repr, DecidableEq

/-- Initial value of `flight_token_cache`: all three fields `None`. -/
def flight_token_cache : TokenCache := ⟨none, none, none⟩

/-- The JSON fields of a login/refresh response body that the code reads:
`data["idToken"]`, `data["refreshToken"]`, `data.get("expiresIn", 3600)`.
A `none` field models the key being absent (a lookup raises `KeyError`). -/
structure LoginData where
  idToken : Option String
  refreshToken : Option String
  expiresIn : Option Int
deriving Repr, DecidableEq

/-- An upstream HTTP response as observed by the token-management code:
status, raw text, and the parsed body (`none` when the body is not JSON,
so that `response.json()` raises). -/
structure HttpResponse where
  status : Nat
  text : String
  json : Option LoginData
deriving Repr, DecidableEq

/-- Result of attempting an HTTP call: a response, or a raised transport
exception with its message. -/
inductive NetResult where
  | ok (resp : HttpResponse)
  | exn (msg : String)
deriving Repr, DecidableEq

/-- FastAPI `HTTPException(status_code, detail)`. -/
structure HTTPException where
  status : Nat
  detail : String
deriving Repr, DecidableEq

/-- Rendering `str(e)` of an `HTTPException` (starlette):
`f"{status_code}: {detail}"`. -/
def excStr (e : HTTPException) : String :=
  toString e.status ++ ": " ++ e.detail

/-- The upstream authentication calls the token code can perform. -/
inductive UpstreamCall where
  | login
  | refresh
deriving Repr, DecidableEq

instance instDecidableEqExcept {ε α : Type} [DecidableEq ε] [DecidableEq α] :
    DecidableEq (Except ε α) := fun a b =>
  match a, b with
  | .ok x, .ok y =>
    if h : x = y then isTrue (by subst h; rfl)
    else isFalse (fun hc => h (Except.ok.inj hc))
  | .ok _, .error _ => isFalse (fun hc => Except.noConfusion hc)
  | .error _, .ok _ => isFalse (fun hc => Except.noConfusion hc)
  | .error x, .error y =>
    if h : x = y then isTrue (by subst h; rfl)
    else isFalse (fun hc => h (Except.error.inj hc))

/-- Observable outcome of a token-management call: the value returned to
the caller (or the `HTTPException` raised), the cache after the call, and
the upstream calls performed, in order. -/
structure TokenResult where
  result : Except HTTPException String
  cache : TokenCache
  calls : List UpstreamCall
deriving Repr, DecidableEq

/-- The cached-token validity check of `get_flight_token`
(main.py lines 53-55): idToken truthy, expiresAt present, and
`datetime.now() < expiresAt`. -/
def cacheValid (c : TokenCache) (now : Int) : Bool :=
  truthyStr c.idToken &&
    match c.expiresAt with
    | none => false
    | some e => decide (now < e)

/-- `get_flight_token` (main.py lines 46-95). If the cached token is
valid it is returned with no network call. Otherwise a login POST is
performed. On a 200 response with a well-formed body the three cache
fields are set, with `expiresAt = now + (expiresIn - 300)` (safety margin,
line 81), and the new token is returned. On a non-200 response the code
raises `HTTPException(response.status_code, ...)` inside the `try` body,
which the `except Exception` clause (line 93) converts to
`HTTPException(500, "Token error: " + str(e))`; likewise for a transport
exception or a malformed body. Field assignments before the failing
lookup persist, mirroring the statement order of lines 78-79. -/
def get_flight_token (cache : TokenCache) (now : Int) (loginResp : NetResult) :
    TokenResult :=
  if cacheValid cache now then
    ⟨.ok (cache.idToken.getD ""), cache, []⟩
  else
    match loginResp with
    | .exn msg => ⟨.error ⟨500, "Token error: " ++ msg⟩, cache, [.login]⟩
    | .ok resp =>
      if resp.status = 200 then
        match resp.json with
        | none =>
          ⟨.error ⟨500, "Token error: invalid JSON body"⟩, cache, [.login]⟩
        | some d =>
          match d.idToken with
          | none =>
            ⟨.error ⟨500, "Token error: KeyError: idToken"⟩, cache, [.login]⟩
          | some tok =>
            match d.refreshToken with
            | none =>
              ⟨.error ⟨500, "Token error: KeyError: refreshToken"⟩,
               { cache with idToken := some tok }, [.login]⟩
            | some rtok =>
              let expiresAt := now + (d.expiresIn.getD 3600 - 300)
              ⟨.ok tok, ⟨some tok, some rtok, some expiresAt⟩, [.login]⟩
      else
        ⟨.error ⟨500, "Token error: " ++
            excStr ⟨resp.status, "Flight API login failed: " ++ resp.text⟩⟩,
         cache, [.login]⟩

/-- `refresh_flight_token` (main.py lines 98-136). With no truthy refresh
token it falls through to `get_flight_token` (lines 104-106) with no
refresh POST. Otherwise the refresh POST is performed; on a 200 response
with a well-formed body only `idToken` and `expiresAt` are updated
(lines 123-125) and the new token returned; on a non-200 response
(line 132) or any raised exception (line 136) it falls back to
`get_flight_token`, whose outcome the caller observes. -/
def refresh_flight_token (cache : TokenCache) (now : Int)
    (refreshResp loginResp : NetResult) : TokenResult :=
  if !truthyStr cache.refreshToken then
    get_flight_token cache now loginResp
  else
    match refreshResp with
    | .exn _ =>
      let r := get_flight_token cache now loginResp
      ⟨r.result, r.cache, .refresh :: r.calls⟩
    | .ok resp =>
      if resp.status = 200 then
        match resp.json with
        | none =>
          let r := get_flight_token cache now loginResp
          ⟨r.result, r.cache, .refresh :: r.calls⟩
        | some d =>
          match d.idToken with
          | none =>
            let r := get_flight_token cache now loginResp
            ⟨r.result, r.cache, .refresh :: r.calls⟩
          | some tok =>
            let expiresAt := now + (d.expiresIn.getD 3600 - 300)
            ⟨.ok tok,
             { cache with idToken := some tok, expiresAt := some expiresAt },
             [.refresh]⟩
      else
        let r := get_flight_token cache now loginResp
        ⟨r.result, r.cache, .refresh :: r.calls⟩

/-- Does `refresh_flight_token` count this refresh-call outcome as a
failure (falling back to login)? Covers a raised transport exception, a
non-200 status, a non-JSON body, and a body missing `idToken`. -/
def refreshFailed : NetResult → Bool
  | .exn _ => true
  | .ok resp =>
    resp.status != 200 ||
      match resp.json with
      | none => true
      | some d => d.idToken.isNone

/-- A generated-identifier value in a header map: literal strings from
the code, or the n-th identifier drawn from the fresh supply (modelling
`str(uuid.uuid4())`). Distinct draw indices model the overwhelming-
probability uniqueness of uuid4. -/
inductive HeaderVal where
  | str (s : String)
  | uuid (n : Nat)
deriving Repr, DecidableEq

/-- State of the fresh-identifier supply: the index of the next draw. -/
structure UuidGen where
  counter : Nat
deriving Repr, DecidableEq

/-- Draw the next fresh identifier. -/
def freshUuid (g : UuidGen) : HeaderVal × UuidGen :=
  (HeaderVal.uuid g.counter, ⟨g.counter + 1⟩)

/-- The `needs_lineage` disjunction of `get_required_headers`
(main.py lines 925-931), over the lower-cased path. -/
def needs_lineage (path_lower : String) : Bool :=
  (strContains path_lower "search" && !strContains path_lower "location") ||
  strContains path_lower "search-by-location" ||
  strContains path_lower "/detail" ||
  strContains path_lower "provisional-book" ||
  (strContains path_lower "/book" && !strContains path_lower "provisional")

/-- The fixed versioning payload attached as `x-meta-data`
(main.py line 922). -/
def locationVersionPayload : String := "\x7b\"locationVersion\":\"V2\"\x7d"

/-- `get_required_headers` (main.py lines 911-937). Builds the base
header dict (content type, api key, fresh `x-request-id`), adds
`x-meta-data` when the lower-cased path contains `location/hotels`, and
adds a fresh `x-lineage-id` when `needs_lineage` holds. Returns the
header map together with the advanced identifier supply. The `method`
parameter is taken but not read, as in the source. -/
def get_required_headers (path : String) (_method : String) (g : UuidGen) :
    List (String × HeaderVal) × UuidGen :=
  let (u1, g1) := freshUuid g
  let headers : List (String × HeaderVal) :=
    [("Content-Type", .str "application/json"),
     ("x-ct-api-key", .str CLEARTRIP_API_KEY),
     ("x-request-id", u1)]
  let path_lower := pyLower path
  let headers :=
    if strContains path_lower "location/hotels" then
      headers ++ [("x-meta-data", .str locationVersionPayload)]
    else headers
  if needs_lineage path_lower then
    let (u2, g2) := freshUuid g1
    (headers ++ [("x-lineage-id", u2)], g2)
  else
    (headers, g1)

/-- Dict lookup in a header map. -/
def getHeader (hs : List (String × HeaderVal)) (k : String) : Option HeaderVal :=
  match hs.find? (fun kv => kv.1 == k) with
  | some kv => some kv.2
  | none => none

/-- An upstream response as observed by the `relay` handler: status, raw
text, and `some v` when `response.json()` succeeds with value `v`
(the JSON value itself is opaque to the relay and kept as a rendering). -/
structure UpstreamResponse where
  status : Nat
  text : String
  jsonBody : Option String
deriving Repr, DecidableEq

/-- The diagnostic envelope `relay` synthesizes for a non-JSON upstream
body (main.py lines 978-983): error marker, original status code,
response text truncated to 2000 characters. -/
structure ErrorEnvelope where
  error : String
  status_code : Nat
  response_text : String
deriving Repr, DecidableEq

/-- Body of a relay response: the upstream JSON passed through, or the
diagnostic envelope. -/
inductive RelayBody where
  | json (v : String)
  | envelope (e : ErrorEnvelope)
deriving Repr, DecidableEq

/-- A JSON response produced by `relay`: status code and body. -/
structure RelayOutcome where
  status : Nat
  body : RelayBody
deriving Repr, DecidableEq

/-- A transport-level exception raised by the outbound call, with the
class tests the `except` clauses perform: `httpx.TimeoutException` is a
subclass of `httpx.HTTPError`, so `isTimeout = true` implies the
exception would also match `httpx.HTTPError`; the clauses are tried in
source order. `isTimeout = false` and `isHttpErr = false` models any
other unexpected internal error. -/
structure TransportExc where
  isTimeout : Bool
  isHttpErr : Bool
  msg : String
deriving Repr, DecidableEq

/-- What the caller of `relay` observes: a JSON response, or a raised
`HTTPException`. -/
inductive RelayResult where
  | response (o : RelayOutcome)
  | error (e : HTTPException)
deriving Repr, DecidableEq

/-- The response mapping of `relay` (main.py lines 971-985): a JSON body
passes through with the upstream status; a non-JSON body is wrapped in
the diagnostic envelope, reported with the upstream status when that
status is at least 400 and with 500 otherwise. -/
def relayMapResponse (r : UpstreamResponse) : RelayOutcome :=
  match r.jsonBody with
  | some v => ⟨r.status, .json v⟩
  | none =>
    ⟨if r.status ≥ 400 then r.status else 500,
     .envelope ⟨"Non-JSON response from Cleartrip", r.status,
       pyTruncate r.text 2000⟩⟩

/-- The exception mapping of `relay` (main.py lines 987-997), with the
`except` clauses tried in source order: `httpx.TimeoutException` first
(504), then `httpx.HTTPError` (502), then `Exception` (500). -/
def relayHandleExc (e : TransportExc) : HTTPException :=
  if e.isTimeout then ⟨504, "Request to Cleartrip timed out"⟩
  else if e.isHttpErr then ⟨502, "Cleartrip API Error: " ++ e.msg⟩
  else ⟨500, "Internal error: " ++ e.msg⟩

/-- The outcome mapping of the `relay` handler (main.py lines 940-997)
as a function of the outbound call result. -/
def relay (out : Except TransportExc UpstreamResponse) : RelayResult :=
  match out with
  | .ok r => .response (relayMapResponse r)
  | .error e => .error (relayHandleExc e)

/-- Phase of one concurrent `get_flight_token` caller, split at the
single await point of the login POST (main.py line 64): `start` is
before the cache check of lines 53-55; `waiting` is after the check
found no valid token and the login POST was issued but its response not
yet processed; `done tok` is a completed call that returned `tok`. -/
inductive Phase where
  | start
  | waiting
  | done (tok : String)
deriving Repr, DecidableEq

/-- State of a system of concurrent `get_flight_token` callers sharing
the process-wide cache: the cache, the number of upstream login POSTs
issued so far, and the phase of each caller. -/
structure ConcSys where
  cache : TokenCache
  loginCount : Nat
  tasks : List Phase
deriving Repr, DecidableEq

/-- One scheduler step of caller `i`, specialized to logins that succeed
with token `tok`, refresh token `"R"` and reported `expiresIn` 3600 (so
the commit writes `expiresAt = now + 3300`, mirroring main.py lines
78-82). In `start`, the caller atomically runs the cache check of lines
53-55: with a valid cache it completes with the cached token; otherwise
it issues the login POST and suspends at the await. In `waiting`, it
resumes with the response, commits the cache fields and completes.
Completed callers and out-of-range indices are no-ops. -/
def stepTask (sys : ConcSys) (i : Nat) (now : Int) (tok : String) : ConcSys :=
  match sys.tasks.get? i with
  | none => sys
  | some Phase.start =>
    if cacheValid sys.cache now then
      { sys with tasks := sys.tasks.set i (Phase.done (sys.cache.idToken.getD "")) }
    else
      { sys with loginCount := sys.loginCount + 1,
                 tasks := sys.tasks.set i Phase.waiting }
  | some Phase.waiting =>
    { sys with cache := ⟨some tok, some "R", some (now + (3600 - 300))⟩,
               tasks := sys.tasks.set i (Phase.done tok) }
  | some (Phase.done _) => sys

/-- Run a cooperative schedule: each entry names the caller to step and
the token its login (if any) returns. -/
def runSched (sys : ConcSys) (now : Int) : List (Nat × String) → ConcSys
  | [] => sys
  | (i, tok) :: rest => runSched (stepTask sys i now tok) now rest

/-- Two concurrent callers over the empty cache. -/
def twoCallersEmpty : ConcSys := ⟨flight_token_cache, 0, [Phase.start, Phase.start]⟩

/-- The interleaved schedule: both callers pass the cache check before
either login response arrives. -/
def interleavedSched : List (Nat × String) :=
  [(0, "T1"), (1, "T2"), (0, "T1"), (1, "T2")]

/-- The serialized schedule: caller 0 runs to completion before caller 1
starts. -/
def serialSched : List (Nat × String) :=
  [(0, "T1"), (0, "T1"), (1, "T2"), (1, "T2")]

/-- Helper: whenever the cache check fails, `get_flight_token` performs
exactly one upstream login call, whatever the login outcome. -/
theorem get_flight_token_calls_of_invalid (cache : TokenCache) (now : Int)
    (resp : NetResult) (h : cacheValid cache now = false) :
    (get_flight_token cache now resp).calls = [UpstreamCall.login] := by
  cases resp with
  | exn m => simp [get_flight_token, h]
  | ok r =>
    by_cases hs : r.status = 200
    · rcases hj : r.json with _ | d
      · simp [get_flight_token, h, hs, hj]
      · rcases hid : d.idToken with _ | tok
        · simp [get_flight_token, h, hs, hj, hid]
        · rcases hrt : d.refreshToken with _ | rt
          · simp [get_flight_token, h, hs, hj, hid, hrt]
          · simp [get_flight_token, h, hs, hj, hid, hrt]
    · simp [get_flight_token, h, hs]

/-- C7: for every path whose lower-cased form contains the sub-path
`location/hotels`, `get_required_headers` returns the `x-meta-data`
header with the fixed versioning payload; for every other path — in
particular the plain `/locations` path, which only lexically overlaps
the more specific sub-path — that header is absent. -/
theorem C7_meta_data_header (path m : String) (g : UuidGen) :
    (strContains (pyLower path) "location/hotels" = true →
      getHeader (get_required_headers path m g).1 "x-meta-data" =
        some (HeaderVal.str locationVersionPayload)) ∧
    (strContains (pyLower path) "location/hotels" = false →
      getHeader (get_required_headers path m g).1 "x-meta-data" = none) := by
  constructor <;> intro h <;>
    simp only [get_required_headers, freshUuid, h, if_true, if_false,
      Bool.false_eq_true] <;>
    split <;> simp [getHeader, List.find?]

/-- C7 witness: the header is present for `/location/hotels` and absent
for `/locations`. -/
theorem C7_meta_data_header_witness :
    getHeader (get_required_headers "/location/hotels" "GET" ⟨0⟩).1
        "x-meta-data" = some (HeaderVal.str locationVersionPayload) ∧
    getHeader (get_required_headers "/locations" "GET" ⟨0⟩).1
        "x-meta-data" = none :=
  ⟨(C7_meta_data_header "/location/hotels" "GET" ⟨0⟩).1 (by decide),
   (C7_meta_data_header "/locations" "GET" ⟨0⟩).2 (by decide)⟩

/-- C1 counterexample: the claim says the `x-lineage-id` key is absent
for `provisional-book` paths, but `needs_lineage` (main.py line 929)
lists `"provisional-book" in path_lower` as a sufficient disjunct, so
`get_required_headers` attaches the lineage header on such a path. -/
theorem C1_counterexample :
    getHeader (get_required_headers "/provisional-book" "POST" ⟨0⟩).1
      "x-lineage-id" = some (HeaderVal.uuid 1) := by decide

/-- C1 (amended): for every path whose lower-cased form contains
`search` without `location`, or contains `search-by-location`, or
`/detail`, or `provisional-book` (this variant is a sufficient
condition, not an exclusion), or `/book` without `provisional`,
`get_required_headers` returns the `x-lineage-id` header, and its value
is freshly drawn on every call: two successive calls with identical path
and method yield distinct lineage values. For a path satisfying none of
these predicates the key is absent. -/
theorem C1_lineage_header (path m : String) (g : UuidGen) :
    (needs_lineage (pyLower path) = true →
      ∃ v1 v2 : HeaderVal,
        getHeader (get_required_headers path m g).1 "x-lineage-id" = some v1 ∧
        getHeader (get_required_headers path m
            (get_required_headers path m g).2).1 "x-lineage-id" = some v2 ∧
        v1 ≠ v2) ∧
    (needs_lineage (pyLower path) = false →
      getHeader (get_required_headers path m g).1 "x-lineage-id" = none) := by
  constructor <;> intro h
  · refine ⟨HeaderVal.uuid (g.counter + 1), HeaderVal.uuid (g.counter + 3),
      ?_, ?_, ?_⟩
    · simp only [get_required_headers, freshUuid, h, if_true]
      split <;> simp [getHeader, List.find?]
    · simp only [get_required_headers, freshUuid, h, if_true]
      split <;> simp [getHeader, List.find?]
    · simp
  · simp only [get_required_headers, freshUuid, h, Bool.false_eq_true,
      if_false]
    split <;> simp [getHeader, List.find?]

/-- C1 witness: the lineage predicate holds for `/search` (two chained
calls give distinct fresh values) and fails for `/locations` (key
absent). -/
theorem C1_lineage_header_witness :
    (∃ v1 v2 : HeaderVal,
      getHeader (get_required_headers "/search" "GET" ⟨0⟩).1
        "x-lineage-id" = some v1 ∧
      getHeader (get_required_headers "/search" "GET"
          (get_required_headers "/search" "GET" ⟨0⟩).2).1
        "x-lineage-id" = some v2 ∧
      v1 ≠ v2) ∧
    getHeader (get_required_headers "/locations" "GET" ⟨0⟩).1
      "x-lineage-id" = none :=
  ⟨(C1_lineage_header "/search" "GET" ⟨0⟩).1 (by decide),
   (C1_lineage_header "/locations" "GET" ⟨0⟩).2 (by decide)⟩

/-- C2: evaluation at the failing input. When the cache is empty and the
partner login endpoint answers 401 with body `invalid credentials`, the
inner `raise HTTPException(response.status_code, ...)` of main.py
lines 88-91 is caught by the blanket `except Exception` of line 93 and
re-raised as status 500, so the caller-visible status is the generic 500
with the upstream status and body only embedded in the message text —
not the upstream 401 the specification promises. -/
theorem C2_login_failure_masked_as_500 :
    get_flight_token flight_token_cache 0
        (.ok ⟨401, "invalid credentials", none⟩) =
      ⟨.error ⟨500,
          "Token error: 401: Flight API login failed: invalid credentials"⟩,
       flight_token_cache, [UpstreamCall.login]⟩ ∧
    (get_flight_token flight_token_cache 0
        (.ok ⟨401, "invalid credentials", none⟩)).result ≠
      .error ⟨401, "Flight API login failed: invalid credentials"⟩ := by
  constructor
  · rfl
  · decide

/-- C3 counterexample: with a Stale cache that holds a refresh token
(idToken `OLD`, refreshToken `R`, expiry instant 0, current time 10),
the next `get_flight_token` call performs a full login — the refresh
transition is never taken by `get_flight_token`. -/
theorem C3_counterexample :
    (get_flight_token ⟨some "OLD", some "R", some 0⟩ 10
        (.ok ⟨200, "", some ⟨some "NEW", some "R2", some 3600⟩⟩)).calls =
      [UpstreamCall.login] ∧
    UpstreamCall.refresh ∉
      (get_flight_token ⟨some "OLD", some "R", some 0⟩ 10
        (.ok ⟨200, "", some ⟨some "NEW", some "R2", some 3600⟩⟩)).calls := by
  decide

/-- C3 (amended): whenever the cached credential is not valid — in
particular when it is Stale — `get_flight_token` performs a full login,
regardless of any stored refresh token. The refresh transition using the
stored refresh token exists only in `refresh_flight_token`, which is
invoked solely by the explicit `/api/flights/refresh` endpoint and does
issue the refresh call first whenever a truthy refresh token is held. -/
theorem C3_stale_triggers_full_login (cache : TokenCache) (now : Int)
    (lResp rResp fResp : NetResult) :
    (cacheValid cache now = false →
      (get_flight_token cache now lResp).calls = [UpstreamCall.login]) ∧
    (truthyStr cache.refreshToken = true →
      (refresh_flight_token cache now rResp fResp).calls.head? =
        some UpstreamCall.refresh) := by
  constructor
  · intro h
    exact get_flight_token_calls_of_invalid cache now lResp h
  · intro h
    cases rResp with
    | exn m => simp [refresh_flight_token, h]
    | ok r =>
      by_cases hs : r.status = 200
      · rcases hj : r.json with _ | d
        · simp [refresh_flight_token, h, hs, hj]
        · rcases hid : d.idToken with _ | tok
          · simp [refresh_flight_token, h, hs, hj, hid]
          · simp [refresh_flight_token, h, hs, hj, hid]
      · simp [refresh_flight_token, h, hs]

/-- C3 witness: at the concrete Stale cache of the counterexample, the
amended claim applies — the call trace is a single login, and the
explicit refresh entry point does lead with a refresh call. -/
theorem C3_stale_triggers_full_login_witness :
    (get_flight_token ⟨some "OLD", some "R", some 0⟩ 10
        (.ok ⟨200, "", some ⟨some "NEW", some "R2", some 3600⟩⟩)).calls =
      [UpstreamCall.login] ∧
    (refresh_flight_token ⟨some "OLD", some "R", some 0⟩ 10
        (.ok ⟨500, "err", none⟩)
        (.ok ⟨200, "", some ⟨some "NEW", some "R2", some 3600⟩⟩)).calls.head? =
      some UpstreamCall.refresh :=
  ⟨(C3_stale_triggers_full_login ⟨some "OLD", some "R", some 0⟩ 10
      (.ok ⟨200, "", some ⟨some "NEW", some "R2", some 3600⟩⟩)
      (.ok ⟨500, "err", none⟩)
      (.ok ⟨200, "", some ⟨some "NEW", some "R2", some 3600⟩⟩)).1 (by decide),
   (C3_stale_triggers_full_login ⟨some "OLD", some "R", some 0⟩ 10
      (.ok ⟨200, "", some ⟨some "NEW", some "R2", some 3600⟩⟩)
      (.ok ⟨500, "err", none⟩)
      (.ok ⟨200, "", some ⟨some "NEW", some "R2", some 3600⟩⟩)).2 (by decide)⟩

/-- C4 counterexample: two `get_flight_token` callers started on the
Empty cache, scheduled so that both pass the cache check before either
login response is processed (a schedule the lock-free code permits,
since the check and the cache commit are separated by the awaited login
POST), perform two upstream logins and can end with different tokens —
not the single-flight one-login-same-token outcome the claim states for
every concurrent execution. -/
theorem C4_counterexample :
    (runSched twoCallersEmpty 0 interleavedSched).loginCount = 2 ∧
    (runSched twoCallersEmpty 0 interleavedSched).loginCount ≠ 1 ∧
    (runSched twoCallersEmpty 0 interleavedSched).tasks =
      [Phase.done "T1", Phase.done "T2"] ∧
    "T1" ≠ "T2" := by
  decide

/-- C4 (amended): `get_flight_token` performs no serialization of
concurrent callers. Under the interleaving in which both callers observe
the Empty cache before either login completes, each performs its own
upstream login (two logins for two callers, with possibly different
resulting tokens). The single-flight outcome — exactly one upstream
login, every caller receiving the same token — holds only when the
calls execute serially, the later caller then being served from the
cache. -/
theorem C4_no_single_flight :
    ((runSched twoCallersEmpty 0 interleavedSched).loginCount = 2 ∧
      (runSched twoCallersEmpty 0 interleavedSched).tasks =
        [Phase.done "T1", Phase.done "T2"]) ∧
    ((runSched twoCallersEmpty 0 serialSched).loginCount = 1 ∧
      (runSched twoCallersEmpty 0 serialSched).tasks =
        [Phase.done "T1", Phase.done "T1"]) := by
  decide

/-- C5: whatever way the refresh call fails — raised transport
exception, non-success status, non-JSON body, or a body missing the
token — `refresh_flight_token` does not propagate that failure: its
returned value and resulting cache are exactly those of the fallback
`get_flight_token` login attempt, so the caller sees an error only if
that fallback also fails, and receives the new token with no error when
the fallback login succeeds. -/
theorem C5_refresh_failure_falls_back (cache : TokenCache) (now : Int)
    (rResp lResp : NetResult)
    (h1 : truthyStr cache.refreshToken = true)
    (h2 : refreshFailed rResp = true) :
    (refresh_flight_token cache now rResp lResp).result =
      (get_flight_token cache now lResp).result ∧
    (refresh_flight_token cache now rResp lResp).cache =
      (get_flight_token cache now lResp).cache := by
  cases rResp with
  | exn m => simp [refresh_flight_token, h1]
  | ok r =>
    by_cases hs : r.status = 200
    · rcases hj : r.json with _ | d
      · simp [refresh_flight_token, h1, hs, hj]
      · rcases hid : d.idToken with _ | tok
        · simp [refresh_flight_token, h1, hs, hj, hid]
        · exfalso
          simp [refreshFailed, hs, hj, hid] at h2
    · simp [refresh_flight_token, h1, hs]

/-- C5 witness: a Stale cache whose refresh token the partner rejects
(refresh answers 500), followed by a successful fallback login, yields
the new token with no error, and the cache agrees with the fallback
login outcome. -/
theorem C5_refresh_failure_falls_back_witness :
    (refresh_flight_token ⟨some "OLD", some "R", some 0⟩ 10
        (.ok ⟨500, "rejected", none⟩)
        (.ok ⟨200, "", some ⟨some "NEW", some "R2", some 3600⟩⟩)).result =
      (get_flight_token ⟨some "OLD", some "R", some 0⟩ 10
        (.ok ⟨200, "", some ⟨some "NEW", some "R2", some 3600⟩⟩)).result ∧
    (refresh_flight_token ⟨some "OLD", some "R", some 0⟩ 10
        (.ok ⟨500, "rejected", none⟩)
        (.ok ⟨200, "", some ⟨some "NEW", some "R2", some 3600⟩⟩)).cache =
      (get_flight_token ⟨some "OLD", some "R", some 0⟩ 10
        (.ok ⟨200, "", some ⟨some "NEW", some "R2", some 3600⟩⟩)).cache :=
  C5_refresh_failure_falls_back ⟨some "OLD", some "R", some 0⟩ 10
    (.ok ⟨500, "rejected", none⟩)
    (.ok ⟨200, "", some ⟨some "NEW", some "R2", some 3600⟩⟩)
    (by decide) (by decide)

/-- C6: after a successful login at time `t` reporting `expiresIn = e`,
the stored expiry instant equals `t + e - 300` (the 300-second safety
margin of main.py line 81). In particular a token whose reported expiry
is 60 seconds away is cached with an expiry instant already in the past,
so every later `get_flight_token` call does not return the cached token
but performs a fresh login transition. -/
theorem C6_safety_margin (cache : TokenCache) (t : Int) (resp : HttpResponse)
    (d : LoginData) (tok rtok : String) (e : Int)
    (hnv : cacheValid cache t = false)
    (hs : resp.status = 200) (hj : resp.json = some d)
    (hid : d.idToken = some tok) (hrt : d.refreshToken = some rtok)
    (hei : d.expiresIn = some e) :
    (get_flight_token cache t (.ok resp)).cache.expiresAt =
      some (t + e - 300) ∧
    (e = 60 → ∀ (t2 : Int) (resp2 : NetResult), t ≤ t2 →
      (get_flight_token (get_flight_token cache t (.ok resp)).cache
          t2 resp2).calls = [UpstreamCall.login]) := by
  have hc : (get_flight_token cache t (.ok resp)).cache =
      ⟨some tok, some rtok, some (t + (e - 300))⟩ := by
    simp [get_flight_token, hnv, hs, hj, hid, hrt, hei]
  constructor
  · rw [hc]
    simp only [Option.some.injEq]
    omega
  · intro he t2 resp2 hle
    apply get_flight_token_calls_of_invalid
    rw [hc]
    subst he
    have hlt : ¬(t2 < t + (60 - 300)) := by omega
    simp [cacheValid, hlt]
    intro _
    omega

/-- C6 witness: an empty cache, a login at time 0 reporting
`expiresIn = 60`, an expiry instant cached as `0 + 60 - 300 = -240`,
and a follow-up call at time 5 that performs a login rather than
returning the cached token. -/
theorem C6_safety_margin_witness :
    (get_flight_token flight_token_cache 0
        (.ok ⟨200, "", some ⟨some "T", some "R", some 60⟩⟩)).cache.expiresAt =
      some (0 + 60 - 300) ∧
    (get_flight_token
        (get_flight_token flight_token_cache 0
          (.ok ⟨200, "", some ⟨some "T", some "R", some 60⟩⟩)).cache
        5 (.exn "down")).calls = [UpstreamCall.login] :=
  ⟨(C6_safety_margin flight_token_cache 0
      ⟨200, "", some ⟨some "T", some "R", some 60⟩⟩
      ⟨some "T", some "R", some 60⟩ "T" "R" 60
      (by decide) rfl rfl rfl rfl rfl).1,
   (C6_safety_margin flight_token_cache 0
      ⟨200, "", some ⟨some "T", some "R", some 60⟩⟩
      ⟨some "T", some "R", some 60⟩ "T" "R" 60
      (by decide) rfl rfl rfl rfl rfl).2 rfl 5 (.exn "down") (by decide)⟩

/-- C8: for every upstream response whose body does not parse as JSON,
`relay` returns the diagnostic envelope carrying the error marker, the
original upstream status code, and the raw text truncated to 2000
characters; the outcome status is the original status when that status
is at least 400, and is escalated to 500 otherwise. -/
theorem C8_nonjson_diagnostic (r : UpstreamResponse)
    (h : r.jsonBody = none) :
    (400 ≤ r.status →
      relay (.ok r) = .response ⟨r.status,
        .envelope ⟨"Non-JSON response from Cleartrip", r.status,
          pyTruncate r.text 2000⟩⟩) ∧
    (r.status < 400 →
      relay (.ok r) = .response ⟨500,
        .envelope ⟨"Non-JSON response from Cleartrip", r.status,
          pyTruncate r.text 2000⟩⟩) := by
  constructor
  · intro h2
    simp [relay, relayMapResponse, h, h2]
  · intro h2
    have hn : ¬(400 ≤ r.status) := by omega
    simp [relay, relayMapResponse, h, hn]

/-- C8 witness: upstream 200 with the non-JSON body `plain text` is
surfaced as 500 with the original 200 recorded in the envelope, and
upstream 404 with the same body is surfaced as 404 with the same
envelope shape. -/
theorem C8_nonjson_diagnostic_witness :
    relay (.ok ⟨200, "plain text", none⟩) =
      .response ⟨500, .envelope ⟨"Non-JSON response from Cleartrip", 200,
        pyTruncate "plain text" 2000⟩⟩ ∧
    relay (.ok ⟨404, "plain text", none⟩) =
      .response ⟨404, .envelope ⟨"Non-JSON response from Cleartrip", 404,
        pyTruncate "plain text" 2000⟩⟩ :=
  ⟨(C8_nonjson_diagnostic ⟨200, "plain text", none⟩ rfl).2 (by decide),
   (C8_nonjson_diagnostic ⟨404, "plain text", none⟩ rfl).1 (by decide)⟩

/-- C9: a transport-level timeout of the outbound call is surfaced as a
504 gateway-timeout with a descriptive message — in particular never as
a generic 500 — any other transport-level error (`httpx.HTTPError`) as
a 502 bad-gateway, and any other unexpected internal error as a generic
500, mirroring the ordered `except` clauses of main.py lines 987-997. -/
theorem C9_transport_error_mapping (e : TransportExc) :
    (e.isTimeout = true →
      relay (.error e) = .error ⟨504, "Request to Cleartrip timed out"⟩ ∧
      (relayHandleExc e).status ≠ 500) ∧
    (e.isTimeout = false → e.isHttpErr = true →
      relay (.error e) = .error ⟨502, "Cleartrip API Error: " ++ e.msg⟩) ∧
    (e.isTimeout = false → e.isHttpErr = false →
      relay (.error e) = .error ⟨500, "Internal error: " ++ e.msg⟩) := by
  refine ⟨fun h1 => ?_, fun h1 h2 => ?_, fun h1 h2 => ?_⟩
  · constructor
    · simp [relay, relayHandleExc, h1]
    · simp [relayHandleExc, h1]
  · simp [relay, relayHandleExc, h1, h2]
  · simp [relay, relayHandleExc, h1, h2]

/-- C9 witness: a timeout exception maps to 504 (and not 500), a plain
`httpx.HTTPError` to 502, and an unrelated internal error to 500. -/
theorem C9_transport_error_mapping_witness :
    (relay (.error ⟨true, true, "timed out"⟩) =
        .error ⟨504, "Request to Cleartrip timed out"⟩ ∧
      (relayHandleExc ⟨true, true, "timed out"⟩).status ≠ 500) ∧
    relay (.error ⟨false, true, "conn reset"⟩) =
      .error ⟨502, "Cleartrip API Error: " ++ "conn reset"⟩ ∧
    relay (.error ⟨false, false, "oops"⟩) =
      .error ⟨500, "Internal error: " ++ "oops"⟩ :=
  ⟨(C9_transport_error_mapping ⟨true, true, "timed out"⟩).1 rfl,
   (C9_transport_error_mapping ⟨false, true, "conn reset"⟩).2.1 rfl rfl,
   (C9_transport_error_mapping ⟨false, false, "oops"⟩).2.2 rfl rfl⟩

/-- C10: a successful refresh (partner answers 200 with a token)
updates only the `idToken` and `expiresAt` fields of the credential
cache — `expiresAt` to `now + expiresIn - 300` — while the
`refreshToken` field is left unchanged, so the previously stored
refresh token is reused for subsequent refreshes; the caller receives
the new token. -/
theorem C10_refresh_updates_only_token_and_expiry (cache : TokenCache)
    (now : Int) (lResp : NetResult) (resp : HttpResponse) (d : LoginData)
    (tok : String)
    (h1 : truthyStr cache.refreshToken = true)
    (hs : resp.status = 200) (hj : resp.json = some d)
    (hid : d.idToken = some tok) :
    (refresh_flight_token cache now (.ok resp) lResp).cache.refreshToken =
      cache.refreshToken ∧
    (refresh_flight_token cache now (.ok resp) lResp).cache.idToken =
      some tok ∧
    (refresh_flight_token cache now (.ok resp) lResp).cache.expiresAt =
      some (now + (d.expiresIn.getD 3600 - 300)) ∧
    (refresh_flight_token cache now (.ok resp) lResp).result = .ok tok := by
  simp [refresh_flight_token, h1, hs, hj, hid]

/-- C10 witness: refreshing a cache holding refresh token `R` with a
200 response carrying token `NEW` leaves `refreshToken = R`, sets the
token and expiry, and returns `NEW`. -/
theorem C10_refresh_updates_only_token_and_expiry_witness :
    (refresh_flight_token ⟨some "OLD", some "R", some 0⟩ 10
        (.ok ⟨200, "", some ⟨some "NEW", none, some 3600⟩⟩)
        (.exn "down")).cache.refreshToken = some "R" ∧
    (refresh_flight_token ⟨some "OLD", some "R", some 0⟩ 10
        (.ok ⟨200, "", some ⟨some "NEW", none, some 3600⟩⟩)
        (.exn "down")).cache.idToken = some "NEW" ∧
    (refresh_flight_token ⟨some "OLD", some "R", some 0⟩ 10
        (.ok ⟨200, "", some ⟨some "NEW", none, some 3600⟩⟩)
        (.exn "down")).cache.expiresAt = some (10 + (3600 - 300)) ∧
    (refresh_flight_token ⟨some "OLD", some "R", some 0⟩ 10
        (.ok ⟨200, "", some ⟨some "NEW", none, some 3600⟩⟩)
        (.exn "down")).result = .ok "NEW" := by
  have h := C10_refresh_updates_only_token_and_expiry
    ⟨some "OLD", some "R", some 0⟩ 10 (.exn "down")
    ⟨200, "", some ⟨some "NEW", none, some 3600⟩⟩
    ⟨some "NEW", none, some 3600⟩ "NEW" (by decide) rfl rfl rfl
  simpa using h
